import Mathlib

/-!
Shallow embedding of the twp-auth-service authentication handlers
(`src/handlers/auth.py` on top of `src/handlers/base.py`).

The handlers orchestrate: form validation, an employee store, the argon2
password hasher, JWT token issuance, cookie emission and redirects.  The
modules `utils.form`, `utils.exception`, `models.employee` and the external
collaborators (argon2, PyJWT, tornado cookie primitives) are not part of
`src/`; they are modelled from the spec's component contracts (spec sections
4.1 to 4.4) and from the documented tornado semantics, each with a doc
comment saying so.  Everything else is translated line by line from
`auth.py`.
-/

/-- A string-keyed dictionary with string values, mirroring the Python
dicts used for form submissions and stored employee records. -/
abbrev StrDict := List (String × String)

/-- Lookup of a key in a dict (first matching entry), mirroring `d[k]`
read access returning a value when the key is present. -/
def getField (d : StrDict) (k : String) : Option String :=
  (d.find? fun kv => kv.1 == k).map fun kv => kv.2

/-- Python dict assignment `d[k] = v`: replaces the value in place when the
key exists, otherwise appends the new entry (insertion order preserved). -/
def setField (d : StrDict) (k v : String) : StrDict :=
  if d.any fun kv => kv.1 == k then
    d.map fun kv => if kv.1 == k then (k, v) else kv
  else
    d ++ [(k, v)]

/-- Python `del d[k]`: removes the entry for the key. -/
def eraseField (d : StrDict) (k : String) : StrDict :=
  d.filter fun kv => kv.1 != k

/-- Modelled from the spec: the rule set of `utils.form.validate` (module
`utils.form`, absent from `src/`).  Spec section 4.1: field-specific rules —
presence, format for email and phone, minimum length for password, allowed
charset for username; deterministic and total, one error message per
failing field keyed by the field name. -/
def fieldError (field value : String) : Option String :=
  match field with
  | "name" =>
      if value.isEmpty then some "Name is required." else none
  | "email" =>
      if value.isEmpty || !(value.data.contains '@') then
        some "Invalid email address."
      else none
  | "phone" =>
      if value.isEmpty || !(value.data.all Char.isDigit) then
        some "Invalid phone number."
      else none
  | "username" =>
      if value.isEmpty || !(value.data.all fun c => c.isAlphanum || c == '_') then
        some "Invalid username."
      else none
  | "password" =>
      if value.length < 8 then
        some "Password must be at least 8 characters."
      else none
  | _ => none

/-- Modelled from the spec: `utils.form.validate` (absent from `src/`).
Spec section 4.1 contract: `validate(fields) -> (ok, errors)`; returns
`ok = false` with a non-empty per-field error mapping when any field fails;
side-effect free, never raises. -/
def validate (d : StrDict) : Bool × List (String × String) :=
  let errors := d.filterMap fun kv => (fieldError kv.1 kv.2).map fun m => (kv.1, m)
  (errors.isEmpty, errors)

/-- The employee store: the list of persisted employee records.  The store
itself lives behind `models.employee.EmployeeModel` (absent from `src/`). -/
abbrev Store := List StrDict

/-- Modelled from the spec: `EmployeeModel.read_by_username` (module
`models.employee`, absent from `src/`).  Spec section 4.2:
`find_by_username(username) -> Account | absent`, a case-sensitive exact
match; absent is a normal (non-error) outcome. -/
def read_by_username (store : Store) (u : String) : Option StrDict :=
  store.find? fun r => getField r "username" == some u

/-- Fixed algorithm/parameter header of the modelled argon2 digest string
(the real digest embeds algorithm, version, cost parameters and salt). -/
def argonHeader : String := "$argon2id$v=19$"

/-- Modelled from the spec: `argon2.PasswordHasher.hash` (external
collaborator).  Spec section 4.3: produces a self-contained digest string
embedding algorithm parameters and the salt; the salt is drawn fresh per
call, so it is passed here as an explicit argument (explicit
nondeterminism). -/
def PasswordHasher.hash (salt pw : String) : String :=
  argonHeader ++ salt ++ "$" ++ pw

/-- The salt component embedded in a digest: the characters after the fixed
15-character header up to the next separator. -/
def digestSalt (digest : String) : String :=
  ⟨(digest.data.drop 15).takeWhile fun c => c != '$'⟩

/-- Modelled from the spec: `argon2.PasswordHasher.verify` (external
collaborator).  Spec section 4.3: returns true iff the plaintext, hashed
with the parameters and salt embedded in the digest, matches the digest;
reports false on malformed digests instead of raising. -/
def PasswordHasher.verify (digest pw : String) : Bool :=
  digest == PasswordHasher.hash (digestSalt digest) pw

/-- A claim value in the token payload: the employee fields are strings and
the expiry is a UTC timestamp (seconds). -/
inductive Value
  | str (v : String)
  | time (n : Nat)
deriving DecidableEq

/-- The JWT payload: the claim dictionary handed to the encoder. -/
abbrev Payload := List (String × Value)

/-- Modelled from the spec: `jwt.encode` (external PyJWT collaborator).
Spec sections 4.4 and 6: binds the claims to the signing key and the fixed
symmetric MAC algorithm; the token is tamper-evident, so it is modelled as
the triple itself. -/
structure JwtToken where
  payload : Payload
  key : String
  algorithm : String
deriving DecidableEq

/-- Modelled from the spec: the call `jwt.encode(claims, secret, algorithm)`
as used at `auth.py` line 182. -/
def jwt.encode (payload : Payload) (key algorithm : String) : JwtToken :=
  ⟨payload, key, algorithm⟩

/-- A cookie descriptor as emitted by the handlers: `set_signed_cookie`
produces a valued cookie, `clear_cookie` an immediately-expiring one. -/
structure Cookie where
  name : String
  value : Option JwtToken
  httponly : Bool
  secure : Bool
  samesite : String
  domain : String
  expired : Bool
deriving DecidableEq

/-- A status/message notification appended to `self.vars` and surfaced to
the template. -/
structure Notification where
  status : String
  message : String
deriving DecidableEq

/-- The response a handler ends the request with: render a template with
the accumulated vars, or an HTTP redirect. -/
inductive Response
  | render (template : String)
  | redirect (url : String) (permanent : Bool)
deriving DecidableEq

/-- One store operation performed during a request, recorded as a trace so
frame properties (which store calls happened) can be stated. -/
inductive StoreOp
  | read (username : String)
  | create (record : StrDict)
deriving DecidableEq

/-- The configuration slice the handlers read from `self.config['app']`. -/
structure Config where
  name : String
  app_secret : String
  scheme : String
  domain : String
  account_microservice_url : String
deriving DecidableEq

/-- Fault injection for the external collaborators: each flag makes the
corresponding step raise (store read/create failure, hashing failure,
verification failure, encoding failure), exercising the generic
`except Exception` arm of the handlers. -/
structure Faults where
  storeReadFails : Bool
  storeCreateFails : Bool
  hashFails : Bool
  verifyFails : Bool
  encodeFails : Bool
deriving DecidableEq

/-- The fault-free environment: every collaborator behaves normally. -/
def noFaults : Faults := ⟨false, false, false, false, false⟩

/-- Trace of collaborator activity during one request body. -/
structure Trace where
  storeOps : List StoreOp
  hashCalls : Nat
deriving DecidableEq

/-- Outcome of a handler's try-block, mirroring the three except arms of
`auth.py`: `ValueError(errors)` from validation, `ValidationError(msg)` for
business-rule violations, and any other `Exception`. -/
inductive FlowErr
  | valErr (errors : List (String × String))
  | businessErr (msg : String)
  | unexpected (detail : String)
deriving DecidableEq

/-- Everything observable about one handled request: template vars (title
and notifications), emitted cookies, the response, the resulting store, the
store-operation trace, the number of password-hash computations, and what
was logged server-side (the `print(e)` in the generic except arm). -/
structure HandlerResult where
  title : String
  notify : List Notification
  cookies : List Cookie
  response : Response
  store : Store
  storeOps : List StoreOp
  hashCalls : Nat
  logged : List String
deriving DecidableEq

/-- The signup form fields collected by `SignupHandler.post` step 1. -/
structure SignupForm where
  name : String
  email : String
  phone : String
  username : String
  password : String
deriving DecidableEq

/-- The login form fields collected by `LoginHandler.post` step 1. -/
structure LoginForm where
  username : String
  password : String
deriving DecidableEq

/-- The try-block of `SignupHandler.post` (`auth.py` lines 75-105):
collect, validate, duplicate check, hash, set defaults, create.  Returns
the outcome together with the trace of store calls and hash computations. -/
def signupBody (store : Store) (f : Faults) (salt : String) (sub : SignupForm) :
    Except FlowErr Store × Trace :=
  let emp_data : StrDict :=
    [("name", sub.name), ("email", sub.email), ("phone", sub.phone),
     ("username", sub.username), ("password", sub.password)]
  let v := validate emp_data
  if !v.1 then
    (.error (.valErr v.2), ⟨[], 0⟩)
  else if f.storeReadFails then
    (.error (.unexpected "store unavailable"), ⟨[], 0⟩)
  else
    match read_by_username store sub.username with
    | some _ => (.error (.businessErr "Username already exists."), ⟨[.read sub.username], 0⟩)
    | none =>
      if f.hashFails then
        (.error (.unexpected "hashing failure"), ⟨[.read sub.username], 0⟩)
      else
        let withHash := setField emp_data "password" (PasswordHasher.hash salt sub.password)
        let record :=
          setField (setField (setField withHash "title" "Software Engineer") "status" "0") "role" "0"
        if f.storeCreateFails then
          (.error (.unexpected "Unexpected error."),
           ⟨[.read sub.username, .create record], 1⟩)
        else
          (.ok (store ++ [record]), ⟨[.read sub.username, .create record], 1⟩)

/-- `SignupHandler.post` (`auth.py` lines 67-121): run the try-block and
map each outcome through the corresponding except arm; every arm renders
`signup.html`. -/
def SignupHandler.post (cfg : Config) (store : Store) (f : Faults) (salt : String)
    (sub : SignupForm) : HandlerResult :=
  let title := "Create your account - " ++ cfg.name
  match signupBody store f salt sub with
  | (.ok store2, tr) =>
      ⟨title, [⟨"Success", "Account created successfully."⟩], [],
       .render "signup.html", store2, tr.storeOps, tr.hashCalls, []⟩
  | (.error (.valErr errs), tr) =>
      ⟨title, errs.map fun e => ⟨"Error", e.1.toUpper ++ ": " ++ e.2⟩, [],
       .render "signup.html", store, tr.storeOps, tr.hashCalls, []⟩
  | (.error (.businessErr m), tr) =>
      ⟨title, [⟨"Error", m⟩], [], .render "signup.html", store, tr.storeOps, tr.hashCalls, []⟩
  | (.error (.unexpected d), tr) =>
      ⟨title, [⟨"Error", "Internal server error."⟩], [],
       .render "signup.html", store, tr.storeOps, tr.hashCalls, [d]⟩

/-- The try-block of `LoginHandler.post` (`auth.py` lines 151-201): collect,
validate, fetch by username, verify password, strip the hash, add the 24h
expiry (`timedelta(days=1)` = 86400 seconds past `now`), encode the token. -/
def loginBody (cfg : Config) (store : Store) (f : Faults) (now : Nat) (sub : LoginForm) :
    Except FlowErr JwtToken × Trace :=
  let emp_data : StrDict := [("username", sub.username), ("password", sub.password)]
  let v := validate emp_data
  if !v.1 then
    (.error (.valErr v.2), ⟨[], 0⟩)
  else if f.storeReadFails then
    (.error (.unexpected "store unavailable"), ⟨[], 0⟩)
  else
    match read_by_username store sub.username with
    | none => (.error (.businessErr "Invalid credentials."), ⟨[.read sub.username], 0⟩)
    | some existing =>
      if f.verifyFails then
        (.error (.unexpected "hashing failure"), ⟨[.read sub.username], 0⟩)
      else
        match getField existing "password" with
        | none => (.error (.unexpected "KeyError: password"), ⟨[.read sub.username], 0⟩)
        | some stored =>
          if !(PasswordHasher.verify stored sub.password) then
            (.error (.businessErr "Invalid password."), ⟨[.read sub.username], 0⟩)
          else
            let claims := eraseField existing "password"
            let payload : Payload :=
              claims.map (fun kv => (kv.1, Value.str kv.2)) ++ [("exp", Value.time (now + 86400))]
            if f.encodeFails then
              (.error (.unexpected "encoding failure"), ⟨[.read sub.username], 0⟩)
            else
              (.ok (jwt.encode payload cfg.app_secret "HS256"), ⟨[.read sub.username], 0⟩)

/-- `LoginHandler.post` (`auth.py` lines 143-212): on success set the
signed `auth` cookie (`HttpOnly` always; `Secure` iff the configured scheme
is https; `SameSite` None when secure, Lax otherwise; domain is the
configured domain with a leading dot) and redirect non-permanently to the
account microservice dashboard; each except arm renders `login.html`. -/
def LoginHandler.post (cfg : Config) (store : Store) (f : Faults) (now : Nat)
    (sub : LoginForm) : HandlerResult :=
  let title := "Login your account - " ++ cfg.name
  match loginBody cfg store f now sub with
  | (.ok token, tr) =>
      let is_cookie_secure := cfg.scheme == "https"
      let samesite_value := if is_cookie_secure then "None" else "Lax"
      ⟨title, [],
       [⟨"auth", some token, true, is_cookie_secure, samesite_value, "." ++ cfg.domain, false⟩],
       .redirect (cfg.account_microservice_url ++ "/dashboard") false,
       store, tr.storeOps, tr.hashCalls, []⟩
  | (.error (.valErr errs), tr) =>
      ⟨title, errs.map fun e => ⟨"Error", e.1.toUpper ++ ": " ++ e.2⟩, [],
       .render "login.html", store, tr.storeOps, tr.hashCalls, []⟩
  | (.error (.businessErr m), tr) =>
      ⟨title, [⟨"Error", m⟩], [], .render "login.html", store, tr.storeOps, tr.hashCalls, []⟩
  | (.error (.unexpected d), tr) =>
      ⟨title, [⟨"Error", "Internal server error."⟩], [],
       .render "login.html", store, tr.storeOps, tr.hashCalls, [d]⟩

/-- Result of the logout handler, which touches no store. -/
structure LogoutResult where
  cookies : List Cookie
  response : Response
deriving DecidableEq

/-- `LogoutHandler.get` (`auth.py` lines 223-238).  Tornado's
`clear_all_cookies(**kwargs)` calls `clear_cookie(name, **kwargs)` for each
cookie name the request carried, so the handler is a function of the
request's cookie names; every clearing cookie carries the same HttpOnly /
Secure / SameSite / dot-prefixed-domain attributes used at issuance. -/
def LogoutHandler.get (cfg : Config) (requestCookieNames : List String) : LogoutResult :=
  let is_cookie_secure := cfg.scheme == "https"
  let samesite_value := if is_cookie_secure then "None" else "Lax"
  ⟨requestCookieNames.map fun n =>
      ⟨n, none, true, is_cookie_secure, samesite_value, "." ++ cfg.domain, true⟩,
   .redirect "/login" false⟩

/-- `RootHandler.get` (`auth.py` line 45): redirect the root URL to the
login page, non-permanently. -/
def RootHandler.get : Response := .redirect "/login" false

/-- A sample configuration on a plain-http deployment. -/
def sampleCfg : Config :=
  ⟨"TWP", "app-secret-1", "http", "example.com", "http://account.example.com"⟩

/-- A sample configuration on an https deployment. -/
def httpsCfg : Config :=
  ⟨"TWP", "app-secret-1", "https", "example.com", "https://account.example.com"⟩

/-- A stored employee record for user alice, with an argon2-modelled digest
of the password "correctpw1" under the salt "saltsalt". -/
def aliceRecord : StrDict :=
  [("name", "Alice Stone"), ("email", "alice@example.com"), ("phone", "5551234567"),
   ("username", "alice"), ("password", PasswordHasher.hash "saltsalt" "correctpw1"),
   ("title", "Software Engineer"), ("status", "0"), ("role", "0")]

/-- A sample store holding exactly the alice record. -/
def sampleStore : Store := [aliceRecord]

example : (validate [("username", "alice"), ("password", "password123")]).1 = true := by decide

example : PasswordHasher.verify (PasswordHasher.hash "saltsalt" "correctpw1") "correctpw1" = true := by
  decide

example : PasswordHasher.verify (PasswordHasher.hash "saltsalt" "correctpw1") "wrongpass99" = false := by
  decide

theorem takeWhile_all_ne (l r : List Char) (h : l.all (fun c => c != '$') = true) :
    ((l ++ '$' :: r).takeWhile fun c => c != '$') = l := by
  rw [List.takeWhile_append_of_pos (fun a ha => (List.all_eq_true.mp h) a ha)]
  simp [List.takeWhile_cons]

theorem hash_data (salt pw : String) :
    (PasswordHasher.hash salt pw).data = argonHeader.data ++ (salt.data ++ '$' :: pw.data) := by
  have hdollar : "$".data = ['$'] := rfl
  simp [PasswordHasher.hash, String.data_append, hdollar, List.append_assoc]

theorem digestSalt_hash (salt pw : String) (h : salt.data.all (fun c => c != '$') = true) :
    digestSalt (PasswordHasher.hash salt pw) = salt := by
  have hlen : argonHeader.data.length = 15 := rfl
  rw [digestSalt, hash_data, List.drop_left' hlen, takeWhile_all_ne _ _ h]

theorem verify_hash (salt pw : String) (h : salt.data.all (fun c => c != '$') = true) :
    PasswordHasher.verify (PasswordHasher.hash salt pw) pw = true := by
  rw [PasswordHasher.verify, digestSalt_hash salt pw h]
  simp

theorem hash_ne_plaintext (salt pw : String) : PasswordHasher.hash salt pw ≠ pw := by
  intro he
  have hlen := congrArg (fun s => s.data.length) he
  have h15 : argonHeader.data.length = 15 := rfl
  simp only [hash_data, List.length_append, List.length_cons, h15] at hlen
  omega

/-- C1: the claim says the notification text for a non-existent username and
for an existing username with a wrong password is identical.  Evaluating the
login flow shows the code emits "Invalid credentials." for the unknown user
"ghostuser" but "Invalid password." for user "alice" with a wrong password —
the two texts differ, leaking whether the username exists; in both runs no
cookie is set. -/
theorem login_enumeration_leak :
    (LoginHandler.post sampleCfg sampleStore noFaults 1000 ⟨"ghostuser", "password123"⟩).notify
      = [⟨"Error", "Invalid credentials."⟩] ∧
    (LoginHandler.post sampleCfg sampleStore noFaults 1000 ⟨"alice", "wrongpass99"⟩).notify
      = [⟨"Error", "Invalid password."⟩] ∧
    (Notification.mk "Error" "Invalid credentials.") ≠ (Notification.mk "Error" "Invalid password.") ∧
    (LoginHandler.post sampleCfg sampleStore noFaults 1000 ⟨"ghostuser", "password123"⟩).cookies = [] ∧
    (LoginHandler.post sampleCfg sampleStore noFaults 1000 ⟨"alice", "wrongpass99"⟩).cookies = [] := by
  decide

/-- C5: the claim says a successful signup responds with a non-permanent
redirect to /login.  Evaluating the signup flow on a valid submission with
the fresh username "bobby" shows the code instead renders signup.html with a
success notification — no redirect is produced. -/
theorem signup_success_renders_not_redirects :
    (SignupHandler.post sampleCfg sampleStore noFaults "saltbob"
        ⟨"Bob Stone", "bob@example.com", "5550001111", "bobby", "password123"⟩).response
      = Response.render "signup.html" ∧
    (SignupHandler.post sampleCfg sampleStore noFaults "saltbob"
        ⟨"Bob Stone", "bob@example.com", "5550001111", "bobby", "password123"⟩).notify
      = [⟨"Success", "Account created successfully."⟩] ∧
    Response.render "signup.html" ≠ Response.redirect "/login" false := by
  decide

/-- C2 counterexample: the claim says SameSite is strict-equivalent whenever
Secure is set.  A successful login on an https deployment produces the auth
cookie with Secure = true but SameSite = "None" — the least strict policy,
not "Strict". -/
theorem login_cookie_samesite_not_strict :
    ((LoginHandler.post httpsCfg sampleStore noFaults 1000 ⟨"alice", "correctpw1"⟩).cookies.map
        Cookie.secure) = [true] ∧
    ((LoginHandler.post httpsCfg sampleStore noFaults 1000 ⟨"alice", "correctpw1"⟩).cookies.map
        Cookie.samesite) = ["None"] ∧
    "None" ≠ "Strict" := by
  decide

/-- C2 (amended): every cookie the login flow renders has HttpOnly set,
Secure iff the configured scheme is https, and SameSite "None" when Secure
is set and "Lax" otherwise (the code picks cross-site None under https, not
the strictest policy). -/
theorem login_cookie_attributes (cfg : Config) (store : Store) (f : Faults) (now : Nat)
    (sub : LoginForm) (c : Cookie)
    (hc : c ∈ (LoginHandler.post cfg store f now sub).cookies) :
    c.httponly = true ∧ c.secure = (cfg.scheme == "https") ∧
    c.samesite = (if cfg.scheme == "https" then "None" else "Lax") := by
  rcases hres : loginBody cfg store f now sub with ⟨exc, tr⟩
  cases exc with
  | ok token =>
      simp only [LoginHandler.post, hres, List.mem_singleton] at hc
      subst hc
      simp
  | error e =>
      cases e <;> simp [LoginHandler.post, hres] at hc

/-- A default cookie used only to take the head of a cookie list. -/
def defaultCookie : Cookie := ⟨"", none, false, false, "", "", false⟩

/-- The login flow result for alice's correct credentials on the https
deployment. -/
def httpsLoginResult : HandlerResult :=
  LoginHandler.post httpsCfg sampleStore noFaults 1000 ⟨"alice", "correctpw1"⟩

/-- Witness for the amended C2 theorem at a concrete successful login. -/
theorem login_cookie_attributes_witness :
    (httpsLoginResult.cookies.getD 0 defaultCookie) ∈ httpsLoginResult.cookies ∧
    ((httpsLoginResult.cookies.getD 0 defaultCookie).httponly = true ∧
     (httpsLoginResult.cookies.getD 0 defaultCookie).secure = (httpsCfg.scheme == "https") ∧
     (httpsLoginResult.cookies.getD 0 defaultCookie).samesite
       = (if httpsCfg.scheme == "https" then "None" else "Lax")) := by
  constructor
  · decide
  · exact login_cookie_attributes httpsCfg sampleStore noFaults 1000 ⟨"alice", "correctpw1"⟩ _
      (by decide)

/-- C3: for every login with a correct username and password, a cookie named
auth is set with HttpOnly true, whose token claims are the stored record
minus the password hash plus an exp claim of issuance time + 24 hours
(86400 seconds), and the response is a non-permanent redirect to the
account microservice dashboard URL. -/
theorem login_success_sets_auth_cookie (cfg : Config) (store : Store) (now : Nat)
    (sub : LoginForm) (rec : StrDict) (digest : String)
    (hval : (validate [("username", sub.username), ("password", sub.password)]).1 = true)
    (hfind : read_by_username store sub.username = some rec)
    (hpw : getField rec "password" = some digest)
    (hver : PasswordHasher.verify digest sub.password = true) :
    (LoginHandler.post cfg store noFaults now sub).cookies =
      [⟨"auth",
        some (jwt.encode
          ((eraseField rec "password").map (fun kv => (kv.1, Value.str kv.2))
            ++ [("exp", Value.time (now + 86400))])
          cfg.app_secret "HS256"),
        true, cfg.scheme == "https",
        (if cfg.scheme == "https" then "None" else "Lax"),
        "." ++ cfg.domain, false⟩] ∧
    (LoginHandler.post cfg store noFaults now sub).response =
      Response.redirect (cfg.account_microservice_url ++ "/dashboard") false := by
  have hbody : loginBody cfg store noFaults now sub =
      (.ok (jwt.encode
          ((eraseField rec "password").map (fun kv => (kv.1, Value.str kv.2))
            ++ [("exp", Value.time (now + 86400))])
          cfg.app_secret "HS256"),
       ⟨[.read sub.username], 0⟩) := by
    unfold loginBody
    simp [hval, hfind, hpw, hver, noFaults]
  simp [LoginHandler.post, hbody]

/-- Witness for C3: alice logs in with her correct password on the sample
deployment and gets the auth cookie and the dashboard redirect. -/
theorem login_success_sets_auth_cookie_witness :
    ((validate [("username", "alice"), ("password", "correctpw1")]).1 = true ∧
     read_by_username sampleStore "alice" = some aliceRecord ∧
     getField aliceRecord "password" = some (PasswordHasher.hash "saltsalt" "correctpw1") ∧
     PasswordHasher.verify (PasswordHasher.hash "saltsalt" "correctpw1") "correctpw1" = true) ∧
    ((LoginHandler.post sampleCfg sampleStore noFaults 1000 ⟨"alice", "correctpw1"⟩).cookies =
      [⟨"auth",
        some (jwt.encode
          ((eraseField aliceRecord "password").map (fun kv => (kv.1, Value.str kv.2))
            ++ [("exp", Value.time (1000 + 86400))])
          sampleCfg.app_secret "HS256"),
        true, sampleCfg.scheme == "https",
        (if sampleCfg.scheme == "https" then "None" else "Lax"),
        "." ++ sampleCfg.domain, false⟩] ∧
     (LoginHandler.post sampleCfg sampleStore noFaults 1000 ⟨"alice", "correctpw1"⟩).response =
      Response.redirect (sampleCfg.account_microservice_url ++ "/dashboard") false) := by
  refine ⟨⟨by decide, by decide, by decide, by decide⟩, ?_⟩
  exact login_success_sets_auth_cookie sampleCfg sampleStore 1000 ⟨"alice", "correctpw1"⟩
    aliceRecord (PasswordHasher.hash "saltsalt" "correctpw1")
    (by decide) (by decide) (by decide) (by decide)

/-- C4: for every valid signup with a fresh username, the record handed to
the store's create has its password field replaced by the hasher's digest of
the submitted plaintext; the digest differs from the plaintext, verifying
the digest against that plaintext returns true, and the persisted store
gains exactly that hashed record — the plaintext is never persisted. -/
theorem signup_persists_hash_not_plaintext (cfg : Config) (store : Store) (salt : String)
    (sub : SignupForm)
    (hval : (validate [("name", sub.name), ("email", sub.email), ("phone", sub.phone),
        ("username", sub.username), ("password", sub.password)]).1 = true)
    (hfresh : read_by_username store sub.username = none)
    (hsalt : salt.data.all (fun c => c != '$') = true) :
    (SignupHandler.post cfg store noFaults salt sub).storeOps =
      [.read sub.username,
       .create [("name", sub.name), ("email", sub.email), ("phone", sub.phone),
                ("username", sub.username), ("password", PasswordHasher.hash salt sub.password),
                ("title", "Software Engineer"), ("status", "0"), ("role", "0")]] ∧
    (SignupHandler.post cfg store noFaults salt sub).store =
      store ++ [[("name", sub.name), ("email", sub.email), ("phone", sub.phone),
                ("username", sub.username), ("password", PasswordHasher.hash salt sub.password),
                ("title", "Software Engineer"), ("status", "0"), ("role", "0")]] ∧
    PasswordHasher.hash salt sub.password ≠ sub.password ∧
    PasswordHasher.verify (PasswordHasher.hash salt sub.password) sub.password = true := by
  have hbody : signupBody store noFaults salt sub =
      (.ok (store ++ [[("name", sub.name), ("email", sub.email), ("phone", sub.phone),
                ("username", sub.username), ("password", PasswordHasher.hash salt sub.password),
                ("title", "Software Engineer"), ("status", "0"), ("role", "0")]]),
       ⟨[.read sub.username,
         .create [("name", sub.name), ("email", sub.email), ("phone", sub.phone),
                ("username", sub.username), ("password", PasswordHasher.hash salt sub.password),
                ("title", "Software Engineer"), ("status", "0"), ("role", "0")]], 1⟩) := by
    unfold signupBody
    simp [hval, hfresh, noFaults, setField]
  refine ⟨?_, ?_, hash_ne_plaintext salt sub.password, verify_hash salt sub.password hsalt⟩
  · simp [SignupHandler.post, hbody]
  · simp [SignupHandler.post, hbody]

/-- Witness for C4: Bob signs up with a fresh username on the sample store;
the created record carries the digest of "password123", not the plaintext. -/
theorem signup_persists_hash_not_plaintext_witness :
    ((validate [("name", "Bob Stone"), ("email", "bob@example.com"), ("phone", "5550001111"),
        ("username", "bobby"), ("password", "password123")]).1 = true ∧
     read_by_username sampleStore "bobby" = none ∧
     ("saltbob".data.all fun c => c != '$') = true) ∧
    ((SignupHandler.post sampleCfg sampleStore noFaults "saltbob"
        ⟨"Bob Stone", "bob@example.com", "5550001111", "bobby", "password123"⟩).storeOps =
      [.read "bobby",
       .create [("name", "Bob Stone"), ("email", "bob@example.com"), ("phone", "5550001111"),
                ("username", "bobby"), ("password", PasswordHasher.hash "saltbob" "password123"),
                ("title", "Software Engineer"), ("status", "0"), ("role", "0")]] ∧
     (SignupHandler.post sampleCfg sampleStore noFaults "saltbob"
        ⟨"Bob Stone", "bob@example.com", "5550001111", "bobby", "password123"⟩).store =
      sampleStore ++ [[("name", "Bob Stone"), ("email", "bob@example.com"),
                ("phone", "5550001111"), ("username", "bobby"),
                ("password", PasswordHasher.hash "saltbob" "password123"),
                ("title", "Software Engineer"), ("status", "0"), ("role", "0")]] ∧
     PasswordHasher.hash "saltbob" "password123" ≠ "password123" ∧
     PasswordHasher.verify (PasswordHasher.hash "saltbob" "password123") "password123" = true) := by
  refine ⟨⟨by decide, by decide, by decide⟩, ?_⟩
  exact signup_persists_hash_not_plaintext sampleCfg sampleStore "saltbob"
    ⟨"Bob Stone", "bob@example.com", "5550001111", "bobby", "password123"⟩
    (by decide) (by decide) (by decide)

/-- C6: for every signup whose username already exists (reached with a
passing validation and an available store read), the flow produces exactly
the duplicate-username notification, the store is unchanged, the only store
operation is the read (create is never invoked), and no password hashing
occurs. -/
theorem signup_duplicate_no_mutation (cfg : Config) (store : Store) (f : Faults)
    (salt : String) (sub : SignupForm) (rec : StrDict)
    (hval : (validate [("name", sub.name), ("email", sub.email), ("phone", sub.phone),
        ("username", sub.username), ("password", sub.password)]).1 = true)
    (hread : f.storeReadFails = false)
    (hdup : read_by_username store sub.username = some rec) :
    (SignupHandler.post cfg store f salt sub).notify =
      [⟨"Error", "Username already exists."⟩] ∧
    (SignupHandler.post cfg store f salt sub).store = store ∧
    (SignupHandler.post cfg store f salt sub).storeOps = [.read sub.username] ∧
    (SignupHandler.post cfg store f salt sub).hashCalls = 0 := by
  have hbody : signupBody store f salt sub =
      (.error (.businessErr "Username already exists."), ⟨[.read sub.username], 0⟩) := by
    unfold signupBody
    simp [hval, hread, hdup]
  simp [SignupHandler.post, hbody]

/-- Witness for C6: signing up again as alice produces only the duplicate
notification and leaves the store untouched. -/
theorem signup_duplicate_no_mutation_witness :
    ((validate [("name", "Alice Stone"), ("email", "alice@example.com"),
        ("phone", "5551234567"), ("username", "alice"), ("password", "password123")]).1 = true ∧
     noFaults.storeReadFails = false ∧
     read_by_username sampleStore "alice" = some aliceRecord) ∧
    ((SignupHandler.post sampleCfg sampleStore noFaults "saltx"
        ⟨"Alice Stone", "alice@example.com", "5551234567", "alice", "password123"⟩).notify =
      [⟨"Error", "Username already exists."⟩] ∧
     (SignupHandler.post sampleCfg sampleStore noFaults "saltx"
        ⟨"Alice Stone", "alice@example.com", "5551234567", "alice", "password123"⟩).store =
      sampleStore ∧
     (SignupHandler.post sampleCfg sampleStore noFaults "saltx"
        ⟨"Alice Stone", "alice@example.com", "5551234567", "alice", "password123"⟩).storeOps =
      [.read "alice"] ∧
     (SignupHandler.post sampleCfg sampleStore noFaults "saltx"
        ⟨"Alice Stone", "alice@example.com", "5551234567", "alice", "password123"⟩).hashCalls
      = 0) := by
  refine ⟨⟨by decide, by decide, by decide⟩, ?_⟩
  exact signup_duplicate_no_mutation sampleCfg sampleStore noFaults "saltx"
    ⟨"Alice Stone", "alice@example.com", "5551234567", "alice", "password123"⟩ aliceRecord
    (by decide) (by decide) (by decide)

/-- C7: whenever a signup or login try-block ends in an exception other
than a validation or business-rule error, the handler catches it, logs the
detail server-side, and the user sees exactly the opaque generic
internal-server-error notification with no cookie; the handlers are total
functions, so nothing propagates past the request boundary. -/
theorem unexpected_error_generic_message (cfg : Config) (store : Store) (f : Faults) (salt : String)
    (now : Nat) (ssub : SignupForm) (lsub : LoginForm) (d : String) (trS trL : Trace) :
    (signupBody store f salt ssub = (.error (.unexpected d), trS) →
      (SignupHandler.post cfg store f salt ssub).notify =
        [⟨"Error", "Internal server error."⟩] ∧
      (SignupHandler.post cfg store f salt ssub).response = Response.render "signup.html" ∧
      (SignupHandler.post cfg store f salt ssub).cookies = [] ∧
      (SignupHandler.post cfg store f salt ssub).store = store ∧
      (SignupHandler.post cfg store f salt ssub).logged = [d]) ∧
    (loginBody cfg store f now lsub = (.error (.unexpected d), trL) →
      (LoginHandler.post cfg store f now lsub).notify =
        [⟨"Error", "Internal server error."⟩] ∧
      (LoginHandler.post cfg store f now lsub).response = Response.render "login.html" ∧
      (LoginHandler.post cfg store f now lsub).cookies = [] ∧
      (LoginHandler.post cfg store f now lsub).store = store ∧
      (LoginHandler.post cfg store f now lsub).logged = [d]) := by
  constructor
  · intro h
    simp [SignupHandler.post, h]
  · intro h
    simp [LoginHandler.post, h]

/-- Decidable equality of flow outcomes, used to evaluate the bodies on
concrete inputs. -/
instance {ε α : Type} [DecidableEq ε] [DecidableEq α] : DecidableEq (Except ε α) := fun x y =>
  match x, y with
  | .ok a, .ok b =>
      if h : a = b then .isTrue (h ▸ rfl) else .isFalse fun hc => h (Except.ok.inj hc)
  | .ok _, .error _ => .isFalse fun hc => Except.noConfusion hc
  | .error _, .ok _ => .isFalse fun hc => Except.noConfusion hc
  | .error e1, .error e2 =>
      if h : e1 = e2 then .isTrue (h ▸ rfl) else .isFalse fun hc => h (Except.error.inj hc)

/-- The environment where the store read raises (store unavailable). -/
def readFaulty : Faults := ⟨true, false, false, false, false⟩

/-- Witness for C7: with the store unavailable, valid signup and login
submissions both surface only the generic internal-server-error message. -/
theorem unexpected_error_generic_message_witness :
    (signupBody sampleStore readFaulty "saltbob"
        ⟨"Bob Stone", "bob@example.com", "5550001111", "bobby", "password123"⟩ =
      (.error (.unexpected "store unavailable"), ⟨[], 0⟩) ∧
     loginBody sampleCfg sampleStore readFaulty 1000 ⟨"alice", "correctpw1"⟩ =
      (.error (.unexpected "store unavailable"), ⟨[], 0⟩)) ∧
    ((SignupHandler.post sampleCfg sampleStore readFaulty "saltbob"
        ⟨"Bob Stone", "bob@example.com", "5550001111", "bobby", "password123"⟩).notify =
      [⟨"Error", "Internal server error."⟩] ∧
     (LoginHandler.post sampleCfg sampleStore readFaulty 1000 ⟨"alice", "correctpw1"⟩).notify =
      [⟨"Error", "Internal server error."⟩] ∧
     (LoginHandler.post sampleCfg sampleStore readFaulty 1000 ⟨"alice", "correctpw1"⟩).logged =
      ["store unavailable"]) := by
  refine ⟨⟨by decide, by decide⟩, ?_, ?_, ?_⟩
  · exact ((unexpected_error_generic_message sampleCfg sampleStore readFaulty "saltbob" 1000
      ⟨"Bob Stone", "bob@example.com", "5550001111", "bobby", "password123"⟩
      ⟨"alice", "correctpw1"⟩ "store unavailable" ⟨[], 0⟩ ⟨[], 0⟩).1 (by decide)).1
  · exact ((unexpected_error_generic_message sampleCfg sampleStore readFaulty "saltbob" 1000
      ⟨"Bob Stone", "bob@example.com", "5550001111", "bobby", "password123"⟩
      ⟨"alice", "correctpw1"⟩ "store unavailable" ⟨[], 0⟩ ⟨[], 0⟩).2 (by decide)).1
  · exact ((unexpected_error_generic_message sampleCfg sampleStore readFaulty "saltbob" 1000
      ⟨"Bob Stone", "bob@example.com", "5550001111", "bobby", "password123"⟩
      ⟨"alice", "correctpw1"⟩ "store unavailable" ⟨[], 0⟩ ⟨[], 0⟩).2 (by decide)).2.2.2.2

/-- C8: for every login submission failing validation, each failed field is
reported as its own notification ("FIELD: message") in the single rendered
response, and no store call is made, no cookie set, the store unchanged. -/
theorem login_validation_reported_no_store (cfg : Config) (store : Store) (f : Faults)
    (now : Nat) (sub : LoginForm)
    (hval : (validate [("username", sub.username), ("password", sub.password)]).1 = false) :
    (LoginHandler.post cfg store f now sub).notify =
      (validate [("username", sub.username), ("password", sub.password)]).2.map
        (fun e => ⟨"Error", e.1.toUpper ++ ": " ++ e.2⟩) ∧
    (LoginHandler.post cfg store f now sub).storeOps = [] ∧
    (LoginHandler.post cfg store f now sub).store = store ∧
    (LoginHandler.post cfg store f now sub).cookies = [] ∧
    (LoginHandler.post cfg store f now sub).response = Response.render "login.html" := by
  have hbody : loginBody cfg store f now sub =
      (.error (.valErr (validate [("username", sub.username), ("password", sub.password)]).2),
       ⟨[], 0⟩) := by
    unfold loginBody
    simp [hval]
  simp [LoginHandler.post, hbody]

/-- Witness for C8, the spec's own scenario: username "alice" with password
"short" fails validation with a field-level error on password alone, and
the flow touches no store. -/
theorem login_validation_reported_no_store_witness :
    ((validate [("username", "alice"), ("password", "short")]).1 = false ∧
     (validate [("username", "alice"), ("password", "short")]).2 =
      [("password", "Password must be at least 8 characters.")]) ∧
    ((LoginHandler.post sampleCfg sampleStore noFaults 1000 ⟨"alice", "short"⟩).notify =
      (validate [("username", "alice"), ("password", "short")]).2.map
        (fun e => ⟨"Error", e.1.toUpper ++ ": " ++ e.2⟩) ∧
     (LoginHandler.post sampleCfg sampleStore noFaults 1000 ⟨"alice", "short"⟩).storeOps = [] ∧
     (LoginHandler.post sampleCfg sampleStore noFaults 1000 ⟨"alice", "short"⟩).store =
      sampleStore ∧
     (LoginHandler.post sampleCfg sampleStore noFaults 1000 ⟨"alice", "short"⟩).cookies = [] ∧
     (LoginHandler.post sampleCfg sampleStore noFaults 1000 ⟨"alice", "short"⟩).response =
      Response.render "login.html") := by
  refine ⟨⟨by decide, by decide⟩, ?_⟩
  exact login_validation_reported_no_store sampleCfg sampleStore noFaults 1000
    ⟨"alice", "short"⟩ (by decide)

/-- C9 counterexample: the claim says a logout request with no existing
session still produces a session-clearing cookie.  Tornado's
clear_all_cookies only clears cookies the request carried, so a logout
request bearing no cookies produces no clearing cookie at all — only the
redirect to /login happens. -/
theorem logout_without_cookies_clears_nothing :
    (LogoutHandler.get sampleCfg []).cookies = [] ∧
    (LogoutHandler.get sampleCfg []).response = Response.redirect "/login" false := by
  decide

/-- C9 (amended): every clearing cookie the logout flow produces (one per
cookie carried by the request) has HttpOnly set, Secure iff the configured
scheme is https, SameSite None when secure and Lax otherwise, and the
dot-prefixed configured domain — the same attribute formulas the login
issuance uses — and the response is always a non-permanent redirect to
/login; a request with no cookies yields no clearing cookie but still the
error-free redirect. -/
theorem logout_clearing_cookie_attributes (cfg : Config) (names : List String) (c : Cookie)
    (hc : c ∈ (LogoutHandler.get cfg names).cookies) :
    c.value = none ∧ c.expired = true ∧ c.httponly = true ∧
    c.secure = (cfg.scheme == "https") ∧
    c.samesite = (if cfg.scheme == "https" then "None" else "Lax") ∧
    c.domain = "." ++ cfg.domain ∧
    (LogoutHandler.get cfg names).response = Response.redirect "/login" false := by
  simp only [LogoutHandler.get, List.mem_map] at hc
  obtain ⟨n, hn, rfl⟩ := hc
  simp [LogoutHandler.get]

/-- Witness for the amended C9 at a request carrying only the auth cookie. -/
theorem logout_clearing_cookie_attributes_witness :
    ((LogoutHandler.get sampleCfg ["auth"]).cookies.getD 0 defaultCookie)
      ∈ (LogoutHandler.get sampleCfg ["auth"]).cookies ∧
    (((LogoutHandler.get sampleCfg ["auth"]).cookies.getD 0 defaultCookie).value = none ∧
     ((LogoutHandler.get sampleCfg ["auth"]).cookies.getD 0 defaultCookie).expired = true ∧
     ((LogoutHandler.get sampleCfg ["auth"]).cookies.getD 0 defaultCookie).httponly = true ∧
     ((LogoutHandler.get sampleCfg ["auth"]).cookies.getD 0 defaultCookie).secure
       = (sampleCfg.scheme == "https") ∧
     ((LogoutHandler.get sampleCfg ["auth"]).cookies.getD 0 defaultCookie).samesite
       = (if sampleCfg.scheme == "https" then "None" else "Lax") ∧
     ((LogoutHandler.get sampleCfg ["auth"]).cookies.getD 0 defaultCookie).domain
       = "." ++ sampleCfg.domain ∧
     (LogoutHandler.get sampleCfg ["auth"]).response = Response.redirect "/login" false) := by
  constructor
  · decide
  · exact logout_clearing_cookie_attributes sampleCfg ["auth"] _ (by decide)

/-- C10: logout clears every cookie present on the request, not only the
auth session cookie: one expiring cookie is emitted per request cookie, in
order, each with HttpOnly, the scheme-dependent Secure/SameSite pair, and
the dot-prefixed configured domain. -/
theorem logout_clears_every_request_cookie (cfg : Config) (names : List String) :
    (LogoutHandler.get cfg names).cookies.map Cookie.name = names ∧
    ∀ c ∈ (LogoutHandler.get cfg names).cookies,
      c.expired = true ∧ c.value = none ∧ c.httponly = true ∧
      c.secure = (cfg.scheme == "https") ∧
      c.samesite = (if cfg.scheme == "https" then "None" else "Lax") ∧
      c.domain = "." ++ cfg.domain := by
  constructor
  · rw [LogoutHandler.get]
    rw [List.map_map]
    exact List.map_id'' (fun x => rfl) names
  · intro c hc
    simp only [LogoutHandler.get, List.mem_map] at hc
    obtain ⟨n, hn, rfl⟩ := hc
    simp

/-- Witness for C10 at a request carrying an auth cookie and an unrelated
theme cookie: both are expired with the issuance attributes. -/
theorem logout_clears_every_request_cookie_witness :
    (LogoutHandler.get sampleCfg ["auth", "theme"]).cookies.map Cookie.name
      = ["auth", "theme"] ∧
    (((LogoutHandler.get sampleCfg ["auth", "theme"]).cookies.getD 1 defaultCookie).expired
       = true ∧
     ((LogoutHandler.get sampleCfg ["auth", "theme"]).cookies.getD 1 defaultCookie).value
       = none ∧
     ((LogoutHandler.get sampleCfg ["auth", "theme"]).cookies.getD 1 defaultCookie).httponly
       = true ∧
     ((LogoutHandler.get sampleCfg ["auth", "theme"]).cookies.getD 1 defaultCookie).secure
       = (sampleCfg.scheme == "https") ∧
     ((LogoutHandler.get sampleCfg ["auth", "theme"]).cookies.getD 1 defaultCookie).samesite
       = (if sampleCfg.scheme == "https" then "None" else "Lax") ∧
     ((LogoutHandler.get sampleCfg ["auth", "theme"]).cookies.getD 1 defaultCookie).domain
       = "." ++ sampleCfg.domain) := by
  refine ⟨(logout_clears_every_request_cookie sampleCfg ["auth", "theme"]).1, ?_⟩
  exact (logout_clears_every_request_cookie sampleCfg ["auth", "theme"]).2 _ (by decide)
